import Mathlib

/-!
Verification development for the financial_tools repository.

Shallow embedding of the savings-calculation engine:
* `src/modules/masters/calc_ira_savings.py` (IRA limits, phase-outs, 401(k)
  limit projection, IRA accumulation loop),
* `src/modules/masters/calc_brokerage_savings.py` (brokerage growth model),
* `src/modules/masters/calc_total_savings.py` (529 projection, withdrawal tax,
  total-savings aggregator),
* `src/full-time_part-time_masters/ira_calculator_module.py` (the standalone
  IRA calculator variant).

Python floats are modelled as rationals (ℚ): every quantity the claims are
about is defined by exact field arithmetic, so the formulas are represented
exactly.  Python's `round` (banker's rounding, round-half-to-even) is modelled
by `pythonRound` on ℚ.  Functions that can raise `ValueError` are modelled
with `Except String`.  Calendar years and ages are ℤ, simulation horizons ℕ.
-/

/-- Banker's rounding (round-half-to-even), the semantics of Python's
builtin `round` with one argument, idealised over ℚ. -/
def pythonRound (q : ℚ) : ℤ :=
  let f := ⌊q⌋
  let r := q - f
  if r < 1/2 then f
  else if 1/2 < r then f + 1
  else if f % 2 = 0 then f else f + 1

/-- Rounding to the nearest 500, the `round(x / 500) * 500` idiom used
throughout `calc_ira_savings.py`. -/
def round500 (q : ℚ) : ℚ :=
  ((pythonRound (q / 500)) * 500 : ℤ)

/-- Linear phase-out interpolation, the repeated pattern in
`max_ira_contribution`: full amount below `low`, zero at or above `high`,
linear in between. -/
def phaseInterp (low high max_total magi : ℚ) : ℚ :=
  if magi < low then max_total
  else if high ≤ magi then 0
  else max_total * (high - magi) / (high - low)

/-- Degree-window test shared by all consumers, the Python condition
`masters_degree_enabled and masters_start_year is not None and
masters_start_year <= year < masters_start_year + masters_degree_years`. -/
def inDegreeWindow (enabled : Bool) (mStart : Option ℤ) (mYears : ℤ) (year : ℤ) : Bool :=
  enabled && (match mStart with
    | none => false
    | some s => decide (s ≤ year) && decide (year < s + mYears))

/-- Contribution suspension test: inside an active degree window with
full-time enrollment. -/
def suspendsContrib (enabled : Bool) (mStart : Option ℤ) (mYears : ℤ)
    (enroll : String) (year : ℤ) : Bool :=
  inDegreeWindow enabled mStart mYears year && (enroll == "full_time")

/-! ## Limit projector (`calc_ira_savings.py`, masters module) -/

/-- CATCH_UP constant of `calc_ira_savings.py`. -/
def CATCH_UP : ℚ := 1000

/-- IRA contribution limit `projected_limit` of `calc_ira_savings.py`:
table values for 2022-2025, otherwise `round((6000 + ((year-2022)//2)*500)/500)*500`. -/
def masters_projected_limit (year : ℤ) : ℚ :=
  if year = 2022 then 6000
  else if year = 2023 then 6500
  else if year = 2024 then 7000
  else if year = 2025 then 7000
  else round500 ((6000 + (Int.fdiv (year - 2022) 2) * 500 : ℤ) : ℚ)

/-- The four phase-out categories of the PHASE_OUT tables. -/
inductive PhaseKey where
  | roth_single
  | roth_joint
  | trad_deduct_single
  | trad_deduct_joint
deriving DecidableEq

/-- PHASE_OUT[2025] of `calc_ira_savings.py`. -/
def masters_phase_out_2025 : PhaseKey → ℚ × ℚ
  | .roth_single => (150000, 165000)
  | .roth_joint => (230000, 240000)
  | .trad_deduct_single => (77000, 87000)
  | .trad_deduct_joint => (123000, 143000)

/-- Flat increase of $10,000 per elapsed decade (floor division), the
projection rule of `get_phaseout` for years missing from PHASE_OUT. -/
def phaseIncrease (year : ℤ) : ℚ :=
  ((Int.fdiv (year - 2025) 10) * 10000 : ℤ)

/-- `get_phaseout` of `calc_ira_savings.py`: the 2025 table entry when
`year = 2025`, otherwise both bounds shifted by `phaseIncrease`. -/
def masters_get_phaseout (year : ℤ) (key : PhaseKey) : ℚ × ℚ :=
  if year = 2025 then masters_phase_out_2025 key
  else ((masters_phase_out_2025 key).1 + phaseIncrease year,
        (masters_phase_out_2025 key).2 + phaseIncrease year)

/-- Roth phase-out range selected by filing status in the masters module's
`max_ira_contribution` (lines 218-226): `single` → roth_single,
`joint` → roth_joint, `separate_lived` → fixed (0, 10000), otherwise the
Python code raises `ValueError` (modelled as `none`). -/
def masters_roth_range (year : ℤ) (fs : String) : Option (ℚ × ℚ) :=
  if fs = "single" then some (masters_get_phaseout year .roth_single)
  else if fs = "joint" then some (masters_get_phaseout year .roth_joint)
  else if fs = "separate_lived" then some (0, 10000)
  else none

/-- Traditional-deduction phase-out range selected by filing status in the
masters module's `max_ira_contribution` (lines 239-246). -/
def masters_trad_range (year : ℤ) (fs : String) : Option (ℚ × ℚ) :=
  if fs = "single" then some (masters_get_phaseout year .trad_deduct_single)
  else if fs = "joint" then some (masters_get_phaseout year .trad_deduct_joint)
  else if fs = "separate_lived" then some (0, 10000)
  else none

/-- `max_ira_contribution` of `calc_ira_savings.py` (masters module).
Returns `.error` where the Python code raises `ValueError`. -/
def masters_max_ira_contribution (year age : ℤ) (fs : String) (magi : ℚ)
    (plan_covered : Bool) : Except String ℚ :=
  let base := masters_projected_limit year
  let catch_up := if 50 ≤ age then CATCH_UP else 0
  let max_total := base + catch_up
  match masters_roth_range year fs with
  | none => .error "Unsupported filing status"
  | some (low, high) =>
    let roth_max := phaseInterp low high max_total magi
    if plan_covered then
      match masters_trad_range year fs with
      | none => .error "Unsupported filing status for traditional IRA"
      | some (low_t, high_t) =>
        .ok (max (phaseInterp low_t high_t max_total magi) roth_max)
    else
      .ok (max max_total roth_max)

/-- HISTORICAL_401K_LIMITS table of `calc_ira_savings.py`. -/
def historical_401k_limits (year : ℤ) : Option ℚ :=
  if year = 2006 then some 15000
  else if year = 2007 then some 15500
  else if year = 2008 then some 15500
  else if year = 2009 then some 16500
  else if year = 2010 then some 16500
  else if year = 2011 then some 16500
  else if year = 2012 then some 17000
  else if year = 2013 then some 17500
  else if year = 2014 then some 17500
  else if year = 2015 then some 18000
  else if year = 2016 then some 18000
  else if year = 2017 then some 18000
  else if year = 2018 then some 18500
  else if year = 2019 then some 19000
  else if year = 2020 then some 19500
  else if year = 2021 then some 19500
  else if year = 2022 then some 20500
  else if year = 2023 then some 22500
  else if year = 2024 then some 23000
  else if year = 2025 then some 23500
  else none

/-- HISTORICAL_401K_CATCHUP table of `calc_ira_savings.py`. -/
def historical_401k_catchup (year : ℤ) : Option ℚ :=
  if year = 2006 then some 5000
  else if year = 2007 then some 5000
  else if year = 2008 then some 5000
  else if year = 2009 then some 5500
  else if year = 2010 then some 5500
  else if year = 2011 then some 5500
  else if year = 2012 then some 5500
  else if year = 2013 then some 5500
  else if year = 2014 then some 5500
  else if year = 2015 then some 6000
  else if year = 2016 then some 6000
  else if year = 2017 then some 6000
  else if year = 2018 then some 6000
  else if year = 2019 then some 6000
  else if year = 2020 then some 6500
  else if year = 2021 then some 6500
  else if year = 2022 then some 6750
  else if year = 2023 then some 7500
  else if year = 2024 then some 7500
  else if year = 2025 then some 7500
  else none

/-- `projected_401k_limit` of `calc_ira_savings.py`: table value when
present, otherwise the 2025 base value compounded by `(1+g)^(year-2025)`
and rounded to the nearest 500.  The growth rate is taken as an explicit
argument; the Python default (`None` → historically derived CAGR) is an
irrational number and is always resolved by the caller in the claims
considered here. -/
def projected_401k_limit (year : ℤ) (growth_rate : ℚ) : ℚ :=
  match historical_401k_limits year with
  | some v => v
  | none => round500 (23500 * (1 + growth_rate) ^ (year - 2025))

/-- `projected_401k_catchup` of `calc_ira_savings.py`, same shape with the
2025 catch-up base value 7500. -/
def projected_401k_catchup (year : ℤ) (growth_rate : ℚ) : ℚ :=
  match historical_401k_catchup year with
  | some v => v
  | none => round500 (7500 * (1 + growth_rate) ^ (year - 2025))

/-- `max_401k_contribution` of `calc_ira_savings.py`: base limit plus
catch-up when `age >= 50`. -/
def max_401k_contribution (year age : ℤ) (growth_rate : ℚ) : ℚ :=
  projected_401k_limit year growth_rate +
    (if 50 ≤ age then projected_401k_catchup year growth_rate else 0)

/-! ## Standalone IRA calculator (`full-time_part-time_masters/ira_calculator_module.py`) -/

/-- PHASE_OUT[2025] of `ira_calculator_module.py` (differs from the masters
module in the joint and traditional ranges). -/
def ftpt_phase_out_2025 : PhaseKey → ℚ × ℚ
  | .roth_single => (150000, 165000)
  | .roth_joint => (236000, 246000)
  | .trad_deduct_single => (79000, 89000)
  | .trad_deduct_joint => (126000, 146000)

/-- `get_phaseout` of `ira_calculator_module.py` (same projection rule as
the masters module, over its own table). -/
def ftpt_get_phaseout (year : ℤ) (key : PhaseKey) : ℚ × ℚ :=
  if year = 2025 then ftpt_phase_out_2025 key
  else ((ftpt_phase_out_2025 key).1 + phaseIncrease year,
        (ftpt_phase_out_2025 key).2 + phaseIncrease year)

/-- `projected_limit` of `ira_calculator_module.py` (no rounding step). -/
def ftpt_projected_limit (year : ℤ) : ℚ :=
  if year = 2022 then 6000
  else if year = 2023 then 6500
  else if year = 2024 then 7000
  else if year = 2025 then 7000
  else ((6000 + (Int.fdiv (year - 2022) 2) * 500 : ℤ) : ℚ)

/-- Roth category selection of `ira_calculator_module.py` lines 49-57:
`single`/`hoh`/`separate_not_lived` → roth_single, `joint` → roth_joint,
`separate_lived` → fixed (0, 10000), otherwise `ValueError`. -/
def ftpt_roth_range (year : ℤ) (fs : String) : Option (ℚ × ℚ) :=
  if fs = "single" ∨ fs = "hoh" ∨ fs = "separate_not_lived" then
    some (ftpt_get_phaseout year .roth_single)
  else if fs = "joint" then some (ftpt_get_phaseout year .roth_joint)
  else if fs = "separate_lived" then some (0, 10000)
  else none

/-- Traditional category selection of `ira_calculator_module.py` lines 70-77:
only `single`/`hoh`, `joint` and `separate_lived` are accepted there;
in particular `separate_not_lived` raises. -/
def ftpt_trad_range (year : ℤ) (fs : String) : Option (ℚ × ℚ) :=
  if fs = "single" ∨ fs = "hoh" then some (ftpt_get_phaseout year .trad_deduct_single)
  else if fs = "joint" then some (ftpt_get_phaseout year .trad_deduct_joint)
  else if fs = "separate_lived" then some (0, 10000)
  else none

/-- `max_ira_contribution` of `ira_calculator_module.py`. -/
def ftpt_max_ira_contribution (year age : ℤ) (fs : String) (magi : ℚ)
    (plan_covered : Bool) : Except String ℚ :=
  let base := ftpt_projected_limit year
  let catch_up := if 50 ≤ age then CATCH_UP else 0
  let max_total := base + catch_up
  match ftpt_roth_range year fs with
  | none => .error "Unsupported filing status"
  | some (low, high) =>
    let roth_max := phaseInterp low high max_total magi
    if plan_covered then
      match ftpt_trad_range year fs with
      | none => .error "Unsupported filing status for traditional IRA"
      | some (low_t, high_t) =>
        .ok (max (phaseInterp low_t high_t max_total magi) roth_max)
    else
      .ok (max max_total roth_max)

/-! ## Brokerage growth model (`calc_brokerage_savings.py`) -/

/-- Parameters of `calculate_brokerage_growth`. -/
structure BrokParams where
  start_year : ℤ
  years : ℕ
  starting_balance : ℚ
  annual_contribution : ℚ
  contribution_growth_rate : ℚ
  stock_market_return : ℚ
  inflation_rate : ℚ
  masters_degree_enabled : Bool
  masters_start_year : Option ℤ
  masters_degree_years : ℤ
  masters_enrollment_type : String

/-- Brokerage contribution computed inside loop iteration `i` of
`calculate_brokerage_growth`: `annual * (1+growth)^i`, zeroed during a
full-time degree window. -/
def brokContribution (p : BrokParams) (i : ℕ) : ℚ :=
  let c := p.annual_contribution * (1 + p.contribution_growth_rate) ^ i
  if suspendsContrib p.masters_degree_enabled p.masters_start_year
      p.masters_degree_years p.masters_enrollment_type (p.start_year + (i : ℤ)) then 0
  else c

/-- Nominal brokerage balance after `n` loop iterations of
`calculate_brokerage_growth` (`current_balance`); the year-`i` detail row
reports `brokBalance p (i+1)`. -/
def brokBalance (p : BrokParams) : ℕ → ℚ
  | 0 => p.starting_balance
  | n + 1 => brokBalance p n * (1 + p.stock_market_return) + brokContribution p n

/-- Real brokerage balance after `n` iterations (`current_balance_real`),
compounded at `real_return = stock_market_return - inflation_rate`. -/
def brokBalanceReal (p : BrokParams) : ℕ → ℚ
  | 0 => p.starting_balance
  | n + 1 => brokBalanceReal p n * (1 + (p.stock_market_return - p.inflation_rate)) +
      brokContribution p n

/-- `final_balance_real` of `calculate_brokerage_growth`: the final nominal
balance deflated by `(1+inflation_rate)^years`. -/
def brokFinalBalanceReal (p : BrokParams) : ℚ :=
  brokBalance p p.years / (1 + p.inflation_rate) ^ p.years

/-! ## IRA accumulation loop (`total_ira_contributions_over_years`) -/

/-- Parameters of `total_ira_contributions_over_years` that the IRA
balance loop reads (the 401(k)-projection inputs only feed the detail
rows, which no claim here touches). -/
structure IraParams where
  start_year : ℤ
  age : ℤ
  filing_status : String
  starting_magi : ℚ
  magi_growth_rate : ℚ
  plan_covered : Bool
  stock_market_return : ℚ
  inflation_rate : ℚ
  masters_degree_enabled : Bool
  masters_start_year : Option ℤ
  masters_degree_years : ℤ
  masters_enrollment_type : String

/-- MAGI at loop iteration `i`: the Python loop multiplies `magi` by
`(1 + magi_growth_rate)` at the end of every iteration. -/
def magiAt (p : IraParams) : ℕ → ℚ
  | 0 => p.starting_magi
  | n + 1 => magiAt p n * (1 + p.magi_growth_rate)

/-- IRA contribution computed in loop iteration `i` of
`total_ira_contributions_over_years`: `max_ira_contribution` for the
current year/age/MAGI, zeroed during a full-time degree window.  The
`.error` case models the `ValueError` the Python call raises before the
zeroing is reached. -/
def iraContribE (p : IraParams) (i : ℕ) : Except String ℚ :=
  (masters_max_ira_contribution (p.start_year + (i : ℤ)) (p.age + (i : ℤ))
      p.filing_status (magiAt p i) p.plan_covered).map
    (fun c =>
      if suspendsContrib p.masters_degree_enabled p.masters_start_year
          p.masters_degree_years p.masters_enrollment_type (p.start_year + (i : ℤ)) then 0
      else c)

/-- State `(ira_balance, ira_balance_real)` after `n` iterations of the
loop in `total_ira_contributions_over_years`: both start at 0, the nominal
balance compounds at the market return, the real one at
`real_return = stock_market_return - inflation_rate`, and both receive the
same contribution. -/
def iraLoop (p : IraParams) : ℕ → Except String (ℚ × ℚ)
  | 0 => .ok (0, 0)
  | n + 1 =>
    match iraLoop p n with
    | .error e => .error e
    | .ok (bal, balReal) =>
      match iraContribE p n with
      | .error e => .error e
      | .ok c =>
        .ok (bal * (1 + p.stock_market_return) + c,
             balReal * (1 + (p.stock_market_return - p.inflation_rate)) + c)

/-! ## The 529 withdrawal tax (`calculate_529_withdrawal_tax`) -/

/-- 2025 federal brackets (single) as (lower, upper, marginal rate); the
final `float('inf')` upper bound is modelled as `none`. -/
def federal_brackets_single : List (ℚ × Option ℚ × ℚ) :=
  [(0, some 11600, 10/100), (11600, some 47150, 12/100),
   (47150, some 100525, 22/100), (100525, some 191950, 24/100),
   (191950, some 243725, 32/100), (243725, some 609350, 35/100),
   (609350, none, 37/100)]

/-- 2025 federal brackets (joint). -/
def federal_brackets_joint : List (ℚ × Option ℚ × ℚ) :=
  [(0, some 23200, 10/100), (23200, some 94300, 12/100),
   (94300, some 201050, 22/100), (201050, some 383900, 24/100),
   (383900, some 487450, 32/100), (487450, some 731200, 35/100),
   (731200, none, 37/100)]

/-- 2025 California brackets (single). -/
def california_brackets_single : List (ℚ × Option ℚ × ℚ) :=
  [(0, some 10099, 1/100), (10099, some 23942, 2/100),
   (23942, some 37788, 4/100), (37788, some 52455, 6/100),
   (52455, some 66295, 8/100), (66295, some 338639, 93/1000),
   (338639, some 406364, 103/1000), (406364, some 677275, 113/1000),
   (677275, none, 123/1000)]

/-- 2025 California brackets (joint). -/
def california_brackets_joint : List (ℚ × Option ℚ × ℚ) :=
  [(0, some 20198, 1/100), (20198, some 47884, 2/100),
   (47884, some 75576, 4/100), (75576, some 104910, 6/100),
   (104910, some 132590, 8/100), (132590, some 677278, 93/1000),
   (677278, some 812728, 103/1000), (812728, some 1354550, 113/1000),
   (1354550, none, 123/1000)]

/-- Marginal-bracket walk of `calculate_529_withdrawal_tax`: per bracket,
tax `min(remaining, upper - lower)` at the bracket rate and reduce the
remaining income, stopping once nothing remains (the Python `break`). -/
def bracketWalk : List (ℚ × Option ℚ × ℚ) → ℚ → ℚ
  | [], _ => 0
  | b :: rest, remaining =>
    if remaining ≤ 0 then 0
    else
      let taxable := match b.2.1 with
        | none => remaining
        | some h => min remaining (h - b.1)
      taxable * b.2.2 + bracketWalk rest (remaining - taxable)

/-- `calculate_529_withdrawal_tax` of `calc_total_savings.py`: federal
marginal tax plus California marginal tax plus a flat 10% penalty; the
joint tables are selected only for filing status exactly `"joint"`, every
other string falls to the single tables. -/
def calculate_529_withdrawal_tax (balance_529 : ℚ) (filing_status : String) : ℚ :=
  let fed := if filing_status = "joint" then federal_brackets_joint else federal_brackets_single
  let ca := if filing_status = "joint" then california_brackets_joint else california_brackets_single
  bracketWalk fed balance_529 + bracketWalk ca balance_529 + balance_529 * (10/100)

/-! ## Total savings aggregator (`calculate_total_savings`) -/

/-- Parameters of `calculate_total_savings`.  `k401_limit_growth_rate`
stands for the Python `_401k_limit_growth_rate`, `b529_...` for the
`_529_...` parameters.  The growth rate is required here (the Python
`None` default resolves to the historically derived CAGR, an irrational
number, before any formula in the claims uses it). -/
structure TotalParams where
  start_year : ℤ
  years : ℕ
  age : ℤ
  filing_status : String
  starting_magi : ℚ
  magi_growth_rate : ℚ
  plan_covered : Bool
  stock_market_return : ℚ
  starting_401k_balance : ℚ
  starting_401k_principal : ℚ
  inflation_rate : ℚ
  k401_limit_growth_rate : ℚ
  starting_brokerage_balance : ℚ
  annual_brokerage_contribution : ℚ
  brokerage_contribution_growth_rate : ℚ
  starting_529_balance : ℚ
  annual_529_contribution : ℚ
  b529_contribution_growth_rate : ℚ
  annual_living_expenses : ℚ
  masters_degree_enabled : Bool
  masters_start_year : Option ℤ
  masters_degree_years : ℤ
  masters_annual_tuition : ℚ
  masters_enrollment_type : String
  masters_employer_contribution : ℚ
  ft_annual_living_expenses : ℚ
  pt_annual_living_expenses : ℚ

/-- The IRA-loop parameters the aggregator passes to
`total_ira_contributions_over_years`. -/
def TotalParams.iraParams (p : TotalParams) : IraParams :=
  { start_year := p.start_year, age := p.age, filing_status := p.filing_status,
    starting_magi := p.starting_magi, magi_growth_rate := p.magi_growth_rate,
    plan_covered := p.plan_covered, stock_market_return := p.stock_market_return,
    inflation_rate := p.inflation_rate,
    masters_degree_enabled := p.masters_degree_enabled,
    masters_start_year := p.masters_start_year,
    masters_degree_years := p.masters_degree_years,
    masters_enrollment_type := p.masters_enrollment_type }

/-- The brokerage parameters the aggregator passes to
`calculate_brokerage_growth`. -/
def TotalParams.brokParams (p : TotalParams) : BrokParams :=
  { start_year := p.start_year, years := p.years,
    starting_balance := p.starting_brokerage_balance,
    annual_contribution := p.annual_brokerage_contribution,
    contribution_growth_rate := p.brokerage_contribution_growth_rate,
    stock_market_return := p.stock_market_return,
    inflation_rate := p.inflation_rate,
    masters_degree_enabled := p.masters_degree_enabled,
    masters_start_year := p.masters_start_year,
    masters_degree_years := p.masters_degree_years,
    masters_enrollment_type := p.masters_enrollment_type }

/-- 401(k) contribution computed for loop iteration `i` in
`calculate_total_savings` (lines 191-206 and 213-232): projected base
limit plus catch-up from age 50, zeroed during a full-time degree
window. -/
def k401ContributionYear (p : TotalParams) (i : ℕ) : ℚ :=
  let year := p.start_year + (i : ℤ)
  let base_limit := projected_401k_limit year p.k401_limit_growth_rate
  let catch_up := if 50 ≤ p.age + (i : ℤ) then projected_401k_catchup year p.k401_limit_growth_rate else 0
  let annual := base_limit + catch_up
  if suspendsContrib p.masters_degree_enabled p.masters_start_year
      p.masters_degree_years p.masters_enrollment_type year then 0
  else annual

/-- `_401k_final_balance` after `n` iterations of the aggregator's 401(k)
projection loop. -/
def k401Balance (p : TotalParams) : ℕ → ℚ
  | 0 => p.starting_401k_balance
  | n + 1 => k401Balance p n * (1 + p.stock_market_return) + k401ContributionYear p n

/-- `_401k_contributions`: the sum of the per-year 401(k) contributions
over the first `n` years. -/
def k401ContribSum (p : TotalParams) : ℕ → ℚ
  | 0 => 0
  | n + 1 => k401ContribSum p n + k401ContributionYear p n

/-- Tuition and living-expense withdrawals from the 529 balance for a
given calendar year (lines 276-292 of `calc_total_savings.py`): zero
outside the degree window; inside it, inflation-adjusted tuition (scaled
by 0.7 for part-time, net of the employer contribution, floored at 0) and
inflation-adjusted living expenses for the enrollment type. -/
def b529Withdrawals (p : TotalParams) (year : ℤ) : ℚ × ℚ :=
  match p.masters_start_year with
  | none => (0, 0)
  | some s =>
    if inDegreeWindow p.masters_degree_enabled (some s) p.masters_degree_years year then
      let infl_factor := (1 + p.inflation_rate) ^ (year - s)
      let t0 := p.masters_annual_tuition * infl_factor
      let t1 := if p.masters_enrollment_type == "part_time" then t0 * (7/10) else t0
      let tuition := max (t1 - p.masters_employer_contribution) 0
      let living := (if p.masters_enrollment_type == "full_time"
          then p.ft_annual_living_expenses else p.pt_annual_living_expenses) * infl_factor
      (tuition, living)
    else (0, 0)

/-- `_529_balance` after `n` iterations of the aggregator's 529 loop:
grow, add the growing contribution, subtract tuition and living expenses,
floor at 0. -/
def b529Balance (p : TotalParams) : ℕ → ℚ
  | 0 => p.starting_529_balance
  | n + 1 =>
    let year := p.start_year + (n : ℤ)
    let contrib := p.annual_529_contribution * (1 + p.b529_contribution_growth_rate) ^ n
    let grown := b529Balance p n * (1 + p.stock_market_return) + contrib
    let w := b529Withdrawals p year
    max (grown - w.1 - w.2) 0

/-- `_529_yearly`: the balance appended at the end of each loop
iteration. -/
def b529YearlyList (p : TotalParams) : List ℚ :=
  (List.range p.years).map (fun i => b529Balance p (i + 1))

/-- Output record of `calculate_total_savings` (the scalar results
dictionary; `k401_` and `b529_` stand for the Python `401k_`/`529_`
keys). -/
structure TotalResult where
  ira_nominal : ℚ
  ira_real : ℚ
  k401_nominal : ℚ
  k401_real : ℚ
  k401_contributions : ℚ
  brokerage_nominal : ℚ
  brokerage_real : ℚ
  b529_nominal : ℚ
  b529_real : ℚ
  b529_tax : ℚ
  b529_after_tax : ℚ
  b529_yearly : List ℚ
  total_nominal : ℚ
  total_real : ℚ

/-- `calculate_total_savings` of `calc_total_savings.py`: runs the IRA
loop (whose `max_ira_contribution` calls may raise), the 401(k) and
brokerage projections and the 529 loop, taxes the final 529 balance, and
assembles nominal and real totals.  The real total adds the 529 after-tax
amount deflated by `(1+inflation_rate)^years` (line 309). -/
def calculate_total_savings (p : TotalParams) : Except String TotalResult :=
  match iraLoop p.iraParams p.years with
  | .error e => .error e
  | .ok (iraN, iraR) =>
    let k401N := k401Balance p p.years
    let k401R := k401N / (1 + p.inflation_rate) ^ p.years
    let brokN := brokBalance p.brokParams p.years
    let brokR := brokFinalBalanceReal p.brokParams
    let b529N := b529Balance p p.years
    let tax := calculate_529_withdrawal_tax b529N p.filing_status
    let after_tax := b529N - tax
    .ok {
      ira_nominal := iraN, ira_real := iraR,
      k401_nominal := k401N, k401_real := k401R,
      k401_contributions := k401ContribSum p p.years,
      brokerage_nominal := brokN, brokerage_real := brokR,
      b529_nominal := b529N,
      b529_real := b529N / (1 + p.inflation_rate) ^ p.years,
      b529_tax := tax, b529_after_tax := after_tax,
      b529_yearly := b529YearlyList p,
      total_nominal := iraN + k401N + brokN + after_tax,
      total_real := iraR + k401R + brokR + after_tax / (1 + p.inflation_rate) ^ p.years }

/-- Modelled from the spec: the grand-total-real formula as §4.5 words it,
with the 529 after-tax amount scaled by the ratio of real-to-nominal
totals of the other three accounts (IRA, 401(k), brokerage).  This
definition follows the spec's words and is compared against the code's
`total_real` field. -/
def spec_grand_total_real (r : TotalResult) : ℚ :=
  r.ira_real + r.k401_real + r.brokerage_real +
    r.b529_after_tax * ((r.ira_real + r.k401_real + r.brokerage_real) /
      (r.ira_nominal + r.k401_nominal + r.brokerage_nominal))

/-! ## Concrete parameter sets used by witnesses and counterexamples -/

/-- A small one-year scenario: single filer, MAGI 0, no market growth,
100% inflation, starting 529 balance 100, everything else zero, no degree. -/
def exampleParams : TotalParams :=
  { start_year := 2025, years := 1, age := 30, filing_status := "single",
    starting_magi := 0, magi_growth_rate := 0, plan_covered := false,
    stock_market_return := 0, starting_401k_balance := 0,
    starting_401k_principal := 0, inflation_rate := 1,
    k401_limit_growth_rate := 0, starting_brokerage_balance := 0,
    annual_brokerage_contribution := 0, brokerage_contribution_growth_rate := 0,
    starting_529_balance := 100, annual_529_contribution := 0,
    b529_contribution_growth_rate := 0, annual_living_expenses := 0,
    masters_degree_enabled := false, masters_start_year := none,
    masters_degree_years := 0, masters_annual_tuition := 0,
    masters_enrollment_type := "full_time", masters_employer_contribution := 0,
    ft_annual_living_expenses := 0, pt_annual_living_expenses := 0 }

/-- The exact output of `calculate_total_savings` on `exampleParams`:
IRA contributes 7000 (nominal = real over one year at 0% return), the
401(k) adds the 23500 limit, the 529 balance 100 is taxed 10 (federal)
+ 1 (California) + 10 (penalty) = 21. -/
def exampleResult : TotalResult :=
  { ira_nominal := 7000, ira_real := 7000,
    k401_nominal := 23500, k401_real := 11750, k401_contributions := 23500,
    brokerage_nominal := 0, brokerage_real := 0,
    b529_nominal := 100, b529_real := 50, b529_tax := 21, b529_after_tax := 79,
    b529_yearly := [100], total_nominal := 30579, total_real := 37579/2 }

/-- A zero-horizon scenario with a negative starting 529 balance. -/
def negStart529Params : TotalParams :=
  { exampleParams with years := 0, starting_529_balance := -1 }

/-- Brokerage scenario with 300% inflation and 0% market return: the
real growth factor is negative, so the compounded real balance overtakes
the nominal one after two years. -/
def inflParams : BrokParams :=
  { start_year := 2025, years := 2, starting_balance := 1,
    annual_contribution := 0, contribution_growth_rate := 0,
    stock_market_return := 0, inflation_rate := 3,
    masters_degree_enabled := false, masters_start_year := none,
    masters_degree_years := 0, masters_enrollment_type := "full_time" }

/-- Brokerage scenario with 0% return and 100% inflation over one year:
the compounded real balance is 0 while nominal/(1+inflation) is 1/2. -/
def deflParams : BrokParams :=
  { inflParams with years := 1, inflation_rate := 1 }

/-- Brokerage scenario with a one-year full-time degree window in 2025. -/
def degreeBrokParams : BrokParams :=
  { start_year := 2025, years := 3, starting_balance := 0,
    annual_contribution := 10, contribution_growth_rate := 0,
    stock_market_return := 0, inflation_rate := 0,
    masters_degree_enabled := true, masters_start_year := some 2025,
    masters_degree_years := 1, masters_enrollment_type := "full_time" }

/-- IRA-loop scenario: single filer, MAGI 0, 100% return and 100%
inflation (so the real growth factor is exactly 1), no degree. -/
def stableIraParams : IraParams :=
  { start_year := 2025, age := 30, filing_status := "single",
    starting_magi := 0, magi_growth_rate := 0, plan_covered := false,
    stock_market_return := 1, inflation_rate := 1,
    masters_degree_enabled := false, masters_start_year := none,
    masters_degree_years := 0, masters_enrollment_type := "full_time" }

/-- Brokerage scenario matching `stableIraParams`: positive balances,
100% return, 100% inflation. -/
def stableBrokParams : BrokParams :=
  { inflParams with
    inflation_rate := 1,
    stock_market_return := 1,
    annual_contribution := 1 }

/-! ## Helper lemmas for the bracket walk -/

/-- Well-formedness of one tax bracket against a rate cap `R`: rate in
`[0, R]` and non-negative width. -/
def bracketOK (R : ℚ) (b : ℚ × Option ℚ × ℚ) : Bool :=
  decide (0 ≤ b.2.2) && decide (b.2.2 ≤ R) &&
    (match b.2.1 with
     | none => true
     | some h => decide (b.1 ≤ h))

theorem bracketWalk_nonneg_le (R : ℚ) (hR : 0 ≤ R) :
    ∀ (bs : List (ℚ × Option ℚ × ℚ)), (∀ b ∈ bs, bracketOK R b = true) →
    ∀ rem : ℚ, 0 ≤ rem →
      0 ≤ bracketWalk bs rem ∧ bracketWalk bs rem ≤ R * rem := by
  intro bs
  induction bs with
  | nil =>
    intro _ rem hrem
    exact ⟨le_refl 0, mul_nonneg hR hrem⟩
  | cons b rest ih =>
    intro hall rem hrem
    obtain ⟨lo, hi, rate⟩ := b
    have hb := hall _ (List.mem_cons_self _ _)
    have hrest := fun b hbmem => hall b (List.mem_cons_of_mem _ hbmem)
    by_cases hrle : rem ≤ 0
    · rw [bracketWalk, if_pos hrle]
      exact ⟨le_refl 0, mul_nonneg hR hrem⟩
    · rw [bracketWalk, if_neg hrle]
      cases hi with
      | none =>
        simp only [bracketOK, Bool.and_eq_true, decide_eq_true_eq] at hb
        obtain ⟨⟨hr0, hrR⟩, -⟩ := hb
        dsimp only
        have hwalk := ih hrest (rem - rem) (by linarith)
        constructor
        · exact add_nonneg (mul_nonneg hrem hr0) hwalk.1
        · have e1 : rem * rate ≤ R * rem := by
            calc rem * rate ≤ rem * R := mul_le_mul_of_nonneg_left hrR hrem
            _ = R * rem := mul_comm _ _
          have e2 := hwalk.2
          have e3 : R * (rem - rem) = 0 := by ring
          linarith
      | some h =>
        simp only [bracketOK, Bool.and_eq_true, decide_eq_true_eq] at hb
        obtain ⟨⟨hr0, hrR⟩, hwid⟩ := hb
        dsimp only
        have hwid' : lo ≤ h := by simpa using hwid
        have htax0 : 0 ≤ min rem (h - lo) := le_min hrem (by linarith)
        have htaxle : min rem (h - lo) ≤ rem := min_le_left _ _
        have hwalk := ih hrest (rem - min rem (h - lo)) (by linarith)
        constructor
        · exact add_nonneg (mul_nonneg htax0 hr0) hwalk.1
        · have e1 : min rem (h - lo) * rate ≤ R * min rem (h - lo) := by
            calc min rem (h - lo) * rate ≤ min rem (h - lo) * R :=
              mul_le_mul_of_nonneg_left hrR htax0
            _ = R * min rem (h - lo) := mul_comm _ _
          have e2 := hwalk.2
          have e3 : R * (rem - min rem (h - lo)) = R * rem - R * min rem (h - lo) := by
            ring
          linarith

theorem federal_single_ok : ∀ b ∈ federal_brackets_single, bracketOK (37/100) b = true := by
  intro b hb
  simp only [federal_brackets_single] at hb
  fin_cases hb <;> norm_num [bracketOK]

theorem federal_joint_ok : ∀ b ∈ federal_brackets_joint, bracketOK (37/100) b = true := by
  intro b hb
  simp only [federal_brackets_joint] at hb
  fin_cases hb <;> norm_num [bracketOK]

theorem california_single_ok : ∀ b ∈ california_brackets_single, bracketOK (123/1000) b = true := by
  intro b hb
  simp only [california_brackets_single] at hb
  fin_cases hb <;> norm_num [bracketOK]

theorem california_joint_ok : ∀ b ∈ california_brackets_joint, bracketOK (123/1000) b = true := by
  intro b hb
  simp only [california_brackets_joint] at hb
  fin_cases hb <;> norm_num [bracketOK]

/-- C6: for every non-negative 529 balance and every filing status, the
total withdrawal tax (federal marginal tax + California marginal tax +
10% penalty) is at most the balance itself, hence the after-tax amount
`balance - tax` is never negative. -/
theorem C6_tax_at_most_balance (b : ℚ) (fs : String) (hb : 0 ≤ b) :
    calculate_529_withdrawal_tax b fs ≤ b ∧
      0 ≤ b - calculate_529_withdrawal_tax b fs := by
  have key : calculate_529_withdrawal_tax b fs ≤ (593/1000) * b := by
    rcases eq_or_ne fs "joint" with h | h
    · rw [calculate_529_withdrawal_tax, if_pos h, if_pos h]
      have h1 := bracketWalk_nonneg_le (37/100) (by norm_num) _ federal_joint_ok b hb
      have h2 := bracketWalk_nonneg_le (123/1000) (by norm_num) _ california_joint_ok b hb
      linarith [h1.2, h2.2]
    · rw [calculate_529_withdrawal_tax, if_neg h, if_neg h]
      have h1 := bracketWalk_nonneg_le (37/100) (by norm_num) _ federal_single_ok b hb
      have h2 := bracketWalk_nonneg_le (123/1000) (by norm_num) _ california_single_ok b hb
      linarith [h1.2, h2.2]
  constructor
  · linarith
  · linarith

/-- C6 witness at balance 100, filing status single. -/
theorem C6_witness :
    (0 : ℚ) ≤ 100 ∧
      (calculate_529_withdrawal_tax 100 "single" ≤ 100 ∧
        0 ≤ 100 - calculate_529_withdrawal_tax 100 "single") :=
  ⟨by norm_num, C6_tax_at_most_balance 100 "single" (by norm_num)⟩

/-- C10: `calculate_529_withdrawal_tax` never raises, and every filing
status other than exactly "joint" is taxed with the single bracket
tables: the result coincides with the "single" computation. -/
theorem C10_single_fallback (b : ℚ) (fs : String) (h : fs ≠ "joint") :
    calculate_529_withdrawal_tax b fs = calculate_529_withdrawal_tax b "single" := by
  rw [calculate_529_withdrawal_tax, calculate_529_withdrawal_tax,
    if_neg h, if_neg h, if_neg (by decide : ¬("single" = "joint")),
    if_neg (by decide : ¬("single" = "joint"))]

/-- C10 witness: an unrecognized filing status string is taxed like
"single". -/
theorem C10_witness :
    ("separate_lived" : String) ≠ "joint" ∧
      calculate_529_withdrawal_tax 12345 "separate_lived" =
        calculate_529_withdrawal_tax 12345 "single" :=
  ⟨by decide, C10_single_fallback 12345 "separate_lived" (by decide)⟩

/-- C9 (amended): for every year and growth rate the age-50 401(k)
maximum exceeds the age-49 one by exactly the projected catch-up; the
inequality is strict whenever that catch-up is positive (in particular
for all table years), and `max_401k_contribution 2025 50` is exactly
23500 + 7500 = 31000. -/
theorem C9_catchup_amended (year : ℤ) (g : ℚ) :
    max_401k_contribution year 50 g - max_401k_contribution year 49 g
        = projected_401k_catchup year g
    ∧ (0 < projected_401k_catchup year g →
        max_401k_contribution year 49 g < max_401k_contribution year 50 g)
    ∧ max_401k_contribution 2025 50 g = 31000 := by
  refine ⟨?_, ?_, ?_⟩
  · simp only [max_401k_contribution]
    rw [if_pos (by norm_num : (50:ℤ) ≤ 50), if_neg (by norm_num : ¬(50:ℤ) ≤ 49)]
    ring
  · intro h
    simp only [max_401k_contribution]
    rw [if_pos (by norm_num : (50:ℤ) ≤ 50), if_neg (by norm_num : ¬(50:ℤ) ≤ 49)]
    linarith
  · simp only [max_401k_contribution, projected_401k_limit, projected_401k_catchup,
      historical_401k_limits, historical_401k_catchup]
    norm_num

/-- C9 witness at year 2025, growth rate 0: the catch-up 7500 is positive
and the strict inequality holds. -/
theorem C9_witness :
    (0 : ℚ) < projected_401k_catchup 2025 0 ∧
      max_401k_contribution 2025 49 0 < max_401k_contribution 2025 50 0 := by
  have hpos : (0 : ℚ) < projected_401k_catchup 2025 0 := by
    simp only [projected_401k_catchup, historical_401k_catchup]
    norm_num
  exact ⟨hpos, (C9_catchup_amended 2025 0).2.1 hpos⟩

/-- C9 counterexample: with growth rate -1 and projection year 2026, both
the projected limit and the projected catch-up round to 0, so the age-49
and age-50 maxima are equal and the claimed strict inequality fails. -/
theorem C9_counterexample :
    ¬ (max_401k_contribution 2026 49 (-1) < max_401k_contribution 2026 50 (-1)) := by
  have h49 : max_401k_contribution 2026 49 (-1) = 0 := by
    simp only [max_401k_contribution, projected_401k_limit, projected_401k_catchup,
      historical_401k_limits, historical_401k_catchup, round500, pythonRound]
    norm_num
  have h50 : max_401k_contribution 2026 50 (-1) = 0 := by
    simp only [max_401k_contribution, projected_401k_limit, projected_401k_catchup,
      historical_401k_limits, historical_401k_catchup, round500, pythonRound]
    norm_num
  rw [h49, h50]
  exact lt_irrefl 0

/-! ## Evaluation of the aggregator on the small example scenario -/

theorem exampleParams_eval :
    calculate_total_savings exampleParams = Except.ok exampleResult := by
  simp only [calculate_total_savings, exampleParams, exampleResult,
    TotalParams.iraParams, TotalParams.brokParams,
    iraLoop, iraContribE, Except.map, masters_max_ira_contribution,
    masters_roth_range, masters_get_phaseout, masters_phase_out_2025,
    masters_projected_limit, phaseInterp, CATCH_UP, magiAt,
    suspendsContrib, inDegreeWindow,
    k401Balance, k401ContributionYear, k401ContribSum,
    projected_401k_limit, projected_401k_catchup,
    historical_401k_limits, historical_401k_catchup,
    brokBalance, brokBalanceReal, brokContribution, brokFinalBalanceReal,
    b529Balance, b529Withdrawals, b529YearlyList,
    calculate_529_withdrawal_tax, bracketWalk,
    federal_brackets_single, california_brackets_single,
    federal_brackets_joint, california_brackets_joint,
    List.range_succ, List.range_zero, List.map_append, List.map_cons,
    List.map_nil, List.nil_append, sup_eq_max, max_def]
  norm_num

/-- C1 (amended): for every parameter set, the aggregator's grand total
real value equals IRA_real + 401k_real + brokerage_real plus the 529
after-tax amount discounted directly by `(1+inflation_rate)^years` —
not scaled by the ratio of real-to-nominal totals of the other three
accounts as the spec's formula states. -/
theorem C1_total_real_formula (p : TotalParams) (res : TotalResult)
    (h : calculate_total_savings p = Except.ok res) :
    res.total_real = res.ira_real + res.k401_real + res.brokerage_real +
      res.b529_after_tax / (1 + p.inflation_rate) ^ p.years := by
  simp only [calculate_total_savings] at h
  cases hira : iraLoop p.iraParams p.years with
  | error e => rw [hira] at h; cases h
  | ok pr =>
    obtain ⟨iraN, iraR⟩ := pr
    rw [hira] at h
    dsimp only at h
    simp only [Except.ok.injEq] at h
    subst h
    rfl

/-- C1 witness: the formula instantiated on the example scenario. -/
theorem C1_witness :
    exampleResult.total_real = exampleResult.ira_real + exampleResult.k401_real +
      exampleResult.brokerage_real +
      exampleResult.b529_after_tax /
        (1 + exampleParams.inflation_rate) ^ exampleParams.years :=
  C1_total_real_formula exampleParams exampleResult exampleParams_eval

/-- C1 counterexample: on the example scenario the code's grand total
real value is 37579/2 = 18789.5 while the spec's ratio formula yields
2293425/122 ≈ 18798.57, so the claimed identity fails. -/
theorem C1_counterexample :
    calculate_total_savings exampleParams = Except.ok exampleResult ∧
      exampleResult.total_real ≠ spec_grand_total_real exampleResult := by
  refine ⟨exampleParams_eval, ?_⟩
  simp only [exampleResult, spec_grand_total_real]
  norm_num

/-- C3 (amended): the divided-form real-balance identity holds exactly
where the code computes it that way: the brokerage model's final real
balance is nominal/(1+inflation)^horizon, and the aggregator's 401(k)
and 529 real balances are nominal/(1+inflation)^horizon; the per-year
real balances of the brokerage and IRA models are instead compounded at
`real_return = market_return - inflation` and in general differ from the
divided form (see the counterexample). -/
theorem C3_divided_real_identities :
    (∀ bp : BrokParams,
      brokFinalBalanceReal bp = brokBalance bp bp.years / (1 + bp.inflation_rate) ^ bp.years)
    ∧ (∀ (p : TotalParams) (res : TotalResult), calculate_total_savings p = Except.ok res →
        res.k401_real = res.k401_nominal / (1 + p.inflation_rate) ^ p.years ∧
        res.b529_real = res.b529_nominal / (1 + p.inflation_rate) ^ p.years) := by
  constructor
  · intro bp; rfl
  · intro p res h
    simp only [calculate_total_savings] at h
    cases hira : iraLoop p.iraParams p.years with
    | error e => rw [hira] at h; cases h
    | ok pr =>
      obtain ⟨iraN, iraR⟩ := pr
      rw [hira] at h
      dsimp only at h
      simp only [Except.ok.injEq] at h
      subst h
      exact ⟨rfl, rfl⟩

/-- C3 witness: the 401(k) identity instantiated on the example
scenario. -/
theorem C3_witness :
    exampleResult.k401_real =
      exampleResult.k401_nominal /
        (1 + exampleParams.inflation_rate) ^ exampleParams.years :=
  (C3_divided_real_identities.2 exampleParams exampleResult exampleParams_eval).1

/-- C3 counterexample: one brokerage year with 0% return and 100%
inflation: the reported year-0 real balance is 0 (real-return
compounding) while nominal/(1+inflation)^1 is 1/2, so the claimed
per-year identity fails. -/
theorem C3_counterexample :
    brokBalanceReal deflParams 1 ≠
      brokBalance deflParams 1 / (1 + deflParams.inflation_rate) ^ 1 := by
  simp only [brokBalanceReal, brokBalance, brokContribution, suspendsContrib,
    inDegreeWindow, deflParams, inflParams]
  norm_num

/-- C8 (amended): every element of the aggregator's year-by-year 529
balance sequence is non-negative, and the final 529 balance is
non-negative whenever at least one year is simulated; with a zero-year
horizon the final balance is the (unfloored) starting balance, which may
be negative (see the counterexample). -/
theorem C8_yearly_nonneg (p : TotalParams) :
    (∀ x ∈ b529YearlyList p, 0 ≤ x) ∧ (1 ≤ p.years → 0 ≤ b529Balance p p.years) := by
  constructor
  · intro x hx
    simp only [b529YearlyList, List.mem_map] at hx
    obtain ⟨i, -, rfl⟩ := hx
    simp only [b529Balance]
    exact le_max_right _ _
  · intro hy
    obtain ⟨m, hm⟩ : ∃ m, p.years = m + 1 := ⟨p.years - 1, by omega⟩
    rw [hm]
    simp only [b529Balance]
    exact le_max_right _ _

/-- C8 witness: the one-year example scenario has a non-negative final
529 balance. -/
theorem C8_witness :
    1 ≤ exampleParams.years ∧ 0 ≤ b529Balance exampleParams exampleParams.years :=
  ⟨by norm_num [exampleParams], (C8_yearly_nonneg exampleParams).2 (by norm_num [exampleParams])⟩

/-- C8 counterexample: with a zero-year horizon and starting 529 balance
-1 the aggregator reports a negative final 529 balance (the sequence is
empty, so the floor is never applied). -/
theorem C8_counterexample :
    (calculate_total_savings negStart529Params).toOption.map TotalResult.b529_nominal
        = some (-1)
    ∧ b529YearlyList negStart529Params = []
    ∧ ¬ (0:ℚ) ≤ (-1 : ℚ) := by
  refine ⟨?_, ?_, by norm_num⟩
  · simp [calculate_total_savings, iraLoop, TotalParams.iraParams,
      negStart529Params, exampleParams, b529Balance, Except.toOption]
  · simp [b529YearlyList, negStart529Params, exampleParams]

/-- MAGI evolution does not depend on the degree flag. -/
theorem magiAt_degree_independent (ip : IraParams) :
    ∀ k, magiAt { ip with masters_degree_enabled := false } k = magiAt ip k := by
  intro k
  induction k with
  | zero => rfl
  | succ n ih => simp [magiAt, ih]

/-- C5: with full-time enrollment and an enabled degree window covering a
year, the brokerage, 401(k) and IRA contributions computed for that year
are each exactly 0, and for every year outside the window each
contribution equals the no-degree (masters_degree_enabled = false)
baseline. -/
theorem C5_degree_suspension :
    (∀ (bp : BrokParams) (i : ℕ) (s : ℤ),
        bp.masters_degree_enabled = true →
        bp.masters_start_year = some s →
        bp.masters_enrollment_type = "full_time" →
        s ≤ bp.start_year + (i : ℤ) →
        bp.start_year + (i : ℤ) < s + bp.masters_degree_years →
        brokContribution bp i = 0)
    ∧ (∀ (bp : BrokParams) (i : ℕ),
        inDegreeWindow bp.masters_degree_enabled bp.masters_start_year
          bp.masters_degree_years (bp.start_year + (i : ℤ)) = false →
        brokContribution bp i =
          brokContribution { bp with masters_degree_enabled := false } i)
    ∧ (∀ (p : TotalParams) (i : ℕ) (s : ℤ),
        p.masters_degree_enabled = true →
        p.masters_start_year = some s →
        p.masters_enrollment_type = "full_time" →
        s ≤ p.start_year + (i : ℤ) →
        p.start_year + (i : ℤ) < s + p.masters_degree_years →
        k401ContributionYear p i = 0)
    ∧ (∀ (p : TotalParams) (i : ℕ),
        inDegreeWindow p.masters_degree_enabled p.masters_start_year
          p.masters_degree_years (p.start_year + (i : ℤ)) = false →
        k401ContributionYear p i =
          k401ContributionYear { p with masters_degree_enabled := false } i)
    ∧ (∀ (ip : IraParams) (i : ℕ) (s : ℤ) (c : ℚ),
        ip.masters_degree_enabled = true →
        ip.masters_start_year = some s →
        ip.masters_enrollment_type = "full_time" →
        s ≤ ip.start_year + (i : ℤ) →
        ip.start_year + (i : ℤ) < s + ip.masters_degree_years →
        iraContribE ip i = Except.ok c → c = 0)
    ∧ (∀ (ip : IraParams) (i : ℕ),
        inDegreeWindow ip.masters_degree_enabled ip.masters_start_year
          ip.masters_degree_years (ip.start_year + (i : ℤ)) = false →
        iraContribE ip i = iraContribE { ip with masters_degree_enabled := false } i) := by
  refine ⟨?_, ?_, ?_, ?_, ?_, ?_⟩
  · intro bp i s h1 h2 h3 h4 h5
    simp [brokContribution, suspendsContrib, inDegreeWindow, h1, h2, h3, h4, h5]
  · intro bp i h
    simp only [brokContribution, suspendsContrib, h]
    simp [inDegreeWindow]
  · intro p i s h1 h2 h3 h4 h5
    simp [k401ContributionYear, suspendsContrib, inDegreeWindow, h1, h2, h3, h4, h5]
  · intro p i h
    simp only [k401ContributionYear, suspendsContrib, h]
    simp [inDegreeWindow]
  · intro ip i s c h1 h2 h3 h4 h5 hok
    simp only [iraContribE] at hok
    cases he : masters_max_ira_contribution (ip.start_year + (i : ℤ)) (ip.age + (i : ℤ))
        ip.filing_status (magiAt ip i) ip.plan_covered with
    | error e => rw [he] at hok; simp [Except.map] at hok
    | ok c0 =>
      rw [he] at hok
      simp only [Except.map, Except.ok.injEq] at hok
      rw [← hok]
      simp [suspendsContrib, inDegreeWindow, h1, h2, h3, h4, h5]
  · intro ip i h
    simp only [iraContribE, suspendsContrib, magiAt_degree_independent, h]
    simp [inDegreeWindow]

/-- C5 witness: a concrete one-year window in 2025 zeroes the year-2025
brokerage contribution and leaves year 2026 equal to the baseline. -/
theorem C5_witness :
    brokContribution degreeBrokParams 0 = 0 ∧
      brokContribution degreeBrokParams 1 =
        brokContribution { degreeBrokParams with masters_degree_enabled := false } 1 := by
  constructor
  · exact C5_degree_suspension.1 degreeBrokParams 0 2025 rfl rfl rfl
      (by norm_num [degreeBrokParams]) (by norm_num [degreeBrokParams])
  · exact C5_degree_suspension.2.1 degreeBrokParams 1 (by decide)

/-- Per-year brokerage contributions are non-negative whenever the base
contribution and the growth factor are. -/
theorem brokContribution_nonneg (bp : BrokParams)
    (hann : 0 ≤ bp.annual_contribution) (hg : 0 ≤ 1 + bp.contribution_growth_rate)
    (i : ℕ) : 0 ≤ brokContribution bp i := by
  unfold brokContribution
  dsimp only
  split_ifs
  · exact le_refl 0
  · exact mul_nonneg hann (pow_nonneg hg i)

/-- Invariant of the brokerage loop: the real-return-compounded balance
stays within [0, nominal] when the real growth factor is non-negative. -/
theorem brok_real_le_nominal (bp : BrokParams)
    (hinfl : 0 ≤ bp.inflation_rate)
    (hfac : 0 ≤ 1 + bp.stock_market_return - bp.inflation_rate)
    (hstart : 0 ≤ bp.starting_balance)
    (hann : 0 ≤ bp.annual_contribution)
    (hg : 0 ≤ 1 + bp.contribution_growth_rate) :
    ∀ k, 0 ≤ brokBalanceReal bp k ∧ brokBalanceReal bp k ≤ brokBalance bp k := by
  intro k
  induction k with
  | zero => exact ⟨hstart, le_refl _⟩
  | succ n ih =>
    have hc := brokContribution_nonneg bp hann hg n
    have hfac' : 0 ≤ 1 + (bp.stock_market_return - bp.inflation_rate) := by linarith
    have h1r : 0 ≤ 1 + bp.stock_market_return := by linarith
    constructor
    · simp only [brokBalanceReal]
      exact add_nonneg (mul_nonneg ih.1 hfac') hc
    · simp only [brokBalanceReal, brokBalance]
      have e1 : brokBalanceReal bp n * (1 + (bp.stock_market_return - bp.inflation_rate))
          ≤ brokBalanceReal bp n * (1 + bp.stock_market_return) :=
        mul_le_mul_of_nonneg_left (by linarith) ih.1
      have e2 : brokBalanceReal bp n * (1 + bp.stock_market_return)
          ≤ brokBalance bp n * (1 + bp.stock_market_return) :=
        mul_le_mul_of_nonneg_right ih.2 h1r
      linarith

/-- Invariant of the IRA loop: the real-return-compounded balance stays
within [0, nominal] when the real growth factor and all contributions
are non-negative. -/
theorem ira_loop_invariant (ip : IraParams)
    (hinfl : 0 ≤ ip.inflation_rate)
    (hfac : 0 ≤ 1 + ip.stock_market_return - ip.inflation_rate) :
    ∀ (n : ℕ) (bal balReal : ℚ),
      (∀ j, j < n → ∀ c, iraContribE ip j = Except.ok c → 0 ≤ c) →
      iraLoop ip n = Except.ok (bal, balReal) →
      0 ≤ balReal ∧ balReal ≤ bal := by
  intro n
  induction n with
  | zero =>
    intro bal balReal _ h
    simp only [iraLoop, Except.ok.injEq, Prod.mk.injEq] at h
    obtain ⟨h1, h2⟩ := h
    rw [← h1, ← h2]
    exact ⟨le_refl 0, le_refl 0⟩
  | succ m ih =>
    intro bal balReal hcon h
    rw [iraLoop] at h
    cases hprev : iraLoop ip m with
    | error e => rw [hprev] at h; cases h
    | ok pr =>
      obtain ⟨b0, br0⟩ := pr
      rw [hprev] at h
      cases hc : iraContribE ip m with
      | error e => rw [hc] at h; cases h
      | ok c =>
        rw [hc] at h
        simp only [Except.ok.injEq, Prod.mk.injEq] at h
        obtain ⟨hb, hbr⟩ := h
        have hc0 : 0 ≤ c := hcon m (Nat.lt_succ_self m) c hc
        have hih := ih b0 br0 (fun j hj => hcon j (Nat.lt_succ_of_lt hj)) hprev
        have hfac' : 0 ≤ 1 + (ip.stock_market_return - ip.inflation_rate) := by linarith
        have h1r : 0 ≤ 1 + ip.stock_market_return := by linarith
        rw [← hb, ← hbr]
        constructor
        · exact add_nonneg (mul_nonneg hih.1 hfac') hc0
        · have e1 : br0 * (1 + (ip.stock_market_return - ip.inflation_rate))
              ≤ br0 * (1 + ip.stock_market_return) :=
            mul_le_mul_of_nonneg_left (by linarith) hih.1
          have e2 : br0 * (1 + ip.stock_market_return)
              ≤ b0 * (1 + ip.stock_market_return) :=
            mul_le_mul_of_nonneg_right hih.2 h1r
          linarith

/-- C7 (amended): assuming additionally that the real growth factor
`1 + market_return - inflation_rate` is non-negative (with non-negative
inflation, starting balance and contributions), every real balance of
the brokerage model (per-year and final) and of the IRA loop is at most
its nominal counterpart; without that extra assumption the claim fails
(see the counterexample). -/
theorem C7_real_le_nominal (bp : BrokParams) (ip : IraParams) (k n : ℕ) (bal balReal : ℚ)
    (hb_infl : 0 ≤ bp.inflation_rate)
    (hb_fac : 0 ≤ 1 + bp.stock_market_return - bp.inflation_rate)
    (hb_start : 0 ≤ bp.starting_balance)
    (hb_ann : 0 ≤ bp.annual_contribution)
    (hb_g : 0 ≤ 1 + bp.contribution_growth_rate)
    (hi_infl : 0 ≤ ip.inflation_rate)
    (hi_fac : 0 ≤ 1 + ip.stock_market_return - ip.inflation_rate)
    (hi_con : ∀ j, j < n → ∀ c, iraContribE ip j = Except.ok c → 0 ≤ c)
    (hloop : iraLoop ip n = Except.ok (bal, balReal)) :
    (0 ≤ brokBalanceReal bp k ∧ brokBalanceReal bp k ≤ brokBalance bp k)
    ∧ brokFinalBalanceReal bp ≤ brokBalance bp bp.years
    ∧ (0 ≤ balReal ∧ balReal ≤ bal) := by
  have hb := brok_real_le_nominal bp hb_infl hb_fac hb_start hb_ann hb_g
  refine ⟨hb k, ?_, ira_loop_invariant ip hi_infl hi_fac n bal balReal hi_con hloop⟩
  have hnom : 0 ≤ brokBalance bp bp.years := le_trans (hb bp.years).1 (hb bp.years).2
  have hpow : (1:ℚ) ≤ (1 + bp.inflation_rate) ^ bp.years := by
    calc (1:ℚ) = 1 ^ bp.years := (one_pow _).symm
    _ ≤ (1 + bp.inflation_rate) ^ bp.years := pow_le_pow_left₀ (by norm_num) (by linarith) _
  exact div_le_self hnom hpow

/-- Evaluation of one IRA-loop year on `stableIraParams`. -/
theorem stableIraLoop_eval : iraLoop stableIraParams 1 = Except.ok (7000, 7000) := by
  simp [iraLoop, iraContribE, Except.map, masters_max_ira_contribution,
    masters_roth_range, masters_get_phaseout, masters_phase_out_2025,
    masters_projected_limit, phaseInterp, CATCH_UP, magiAt, suspendsContrib,
    inDegreeWindow, stableIraParams]

/-- C7 witness: instantiated with 100% return and 100% inflation over
two brokerage years and one IRA year. -/
theorem C7_witness :
    (0 ≤ brokBalanceReal stableBrokParams 2 ∧
      brokBalanceReal stableBrokParams 2 ≤ brokBalance stableBrokParams 2)
    ∧ brokFinalBalanceReal stableBrokParams ≤ brokBalance stableBrokParams stableBrokParams.years
    ∧ (0 ≤ (7000:ℚ) ∧ (7000:ℚ) ≤ 7000) := by
  refine C7_real_le_nominal stableBrokParams stableIraParams 2 1 7000 7000
    (by norm_num [stableBrokParams, inflParams])
    (by norm_num [stableBrokParams, inflParams])
    (by norm_num [stableBrokParams, inflParams])
    (by norm_num [stableBrokParams, inflParams])
    (by norm_num [stableBrokParams, inflParams])
    (by norm_num [stableIraParams])
    (by norm_num [stableIraParams])
    ?_ stableIraLoop_eval
  intro j hj c hc
  interval_cases j
  have he : iraContribE stableIraParams 0 = Except.ok 7000 := by
    simp [iraContribE, Except.map, masters_max_ira_contribution,
      masters_roth_range, masters_get_phaseout, masters_phase_out_2025,
      masters_projected_limit, phaseInterp, CATCH_UP, magiAt, suspendsContrib,
      inDegreeWindow, stableIraParams]
  rw [he] at hc
  simp only [Except.ok.injEq] at hc
  rw [← hc]
  norm_num

/-- C7 counterexample: with 0% market return and 300% inflation (all
parameters non-negative, as the claim requires), the brokerage model
reports a year-1 real balance of 4 against a nominal balance of 1, so
real exceeds nominal. -/
theorem C7_counterexample :
    0 ≤ inflParams.inflation_rate ∧ 0 ≤ inflParams.stock_market_return ∧
    0 ≤ inflParams.starting_balance ∧ 0 ≤ inflParams.annual_contribution ∧
    brokBalance inflParams 2 < brokBalanceReal inflParams 2 := by
  norm_num [inflParams, brokBalance, brokBalanceReal, brokContribution,
    suspendsContrib, inDegreeWindow]

/-- Phase-out interpolation yields a non-negative amount. -/
theorem phaseInterp_nonneg (low high mt magi : ℚ) (hlh : low < high) (hmt : 0 ≤ mt) :
    0 ≤ phaseInterp low high mt magi := by
  unfold phaseInterp
  split_ifs with h1 h2
  · exact hmt
  · exact le_refl 0
  · push_neg at h2
    exact div_nonneg (mul_nonneg hmt (by linarith)) (by linarith)

/-- Phase-out interpolation never exceeds the full amount. -/
theorem phaseInterp_le (low high mt magi : ℚ) (hlh : low < high) (hmt : 0 ≤ mt) :
    phaseInterp low high mt magi ≤ mt := by
  unfold phaseInterp
  split_ifs with h1 h2
  · exact le_refl mt
  · exact hmt
  · push_neg at h1 h2
    rw [div_le_iff₀ (by linarith)]
    exact mul_le_mul_of_nonneg_left (by linarith) hmt

/-- Below the low bound the full amount applies. -/
theorem phaseInterp_of_lt_low (low high mt magi : ℚ) (h : magi < low) :
    phaseInterp low high mt magi = mt := if_pos h

/-- At or above the high bound the interpolation is zero. -/
theorem phaseInterp_of_ge_high (low high mt magi : ℚ) (hlh : low < high) (h : high ≤ magi) :
    phaseInterp low high mt magi = 0 := by
  unfold phaseInterp
  rw [if_neg (by push_neg; linarith), if_pos h]

/-- Phase-out interpolation is non-increasing in MAGI. -/
theorem phaseInterp_anti (low high mt : ℚ) (hlh : low < high) (hmt : 0 ≤ mt)
    {m m' : ℚ} (hmm : m ≤ m') :
    phaseInterp low high mt m' ≤ phaseInterp low high mt m := by
  by_cases hm1 : m < low
  · rw [phaseInterp_of_lt_low low high mt m hm1]
    exact phaseInterp_le low high mt m' hlh hmt
  · push_neg at hm1
    by_cases hm2 : high ≤ m
    · rw [phaseInterp_of_ge_high low high mt m hlh hm2,
        phaseInterp_of_ge_high low high mt m' hlh (le_trans hm2 hmm)]
    · push_neg at hm2
      have h1' : ¬ m' < low := not_lt.mpr (le_trans hm1 hmm)
      by_cases hm2' : high ≤ m'
      · rw [phaseInterp_of_ge_high low high mt m' hlh hm2']
        exact phaseInterp_nonneg low high mt m hlh hmt
      · push_neg at hm2'
        unfold phaseInterp
        rw [if_neg (not_lt.mpr hm1), if_neg (not_le.mpr hm2),
          if_neg h1', if_neg (not_le.mpr hm2')]
        rw [div_le_div_iff₀ (by linarith) (by linarith)]
        have : mt * (high - m') ≤ mt * (high - m) :=
          mul_le_mul_of_nonneg_left (by linarith) hmt
        nlinarith [this, sub_pos.mpr hlh]

/-- For every recognized filing status the masters module's traditional
range exists, both ranges are non-degenerate, and the traditional high
bound never exceeds the Roth high bound (77000/87000 vs 150000/165000
for single, 123000/143000 vs 230000/240000 for joint, (0,10000) for both
for separate_lived; the decade projection shifts both bounds equally). -/
theorem masters_range_facts (year : ℤ) (fs : String) (low high : ℚ)
    (h : masters_roth_range year fs = some (low, high)) :
    ∃ low_t high_t, masters_trad_range year fs = some (low_t, high_t) ∧
      low < high ∧ low_t < high_t ∧ high_t ≤ high := by
  have hg : ∀ key, masters_get_phaseout year key =
      ((masters_phase_out_2025 key).1 + (if year = 2025 then 0 else phaseIncrease year),
       (masters_phase_out_2025 key).2 + (if year = 2025 then 0 else phaseIncrease year)) := by
    intro key
    unfold masters_get_phaseout
    split_ifs with hy <;> simp
  unfold masters_roth_range at h
  unfold masters_trad_range
  split_ifs at h with h1 h2 h3
  · rw [if_pos h1, hg .trad_deduct_single]
    rw [hg .roth_single] at h
    simp only [masters_phase_out_2025, Option.some.injEq, Prod.mk.injEq] at h
    obtain ⟨hl, hh⟩ := h
    simp only [masters_phase_out_2025]
    refine ⟨_, _, rfl, ?_, ?_, ?_⟩ <;> linarith [hl, hh]
  · rw [if_neg h1, if_pos h2, hg .trad_deduct_joint]
    rw [hg .roth_joint] at h
    simp only [masters_phase_out_2025, Option.some.injEq, Prod.mk.injEq] at h
    obtain ⟨hl, hh⟩ := h
    simp only [masters_phase_out_2025]
    refine ⟨_, _, rfl, ?_, ?_, ?_⟩ <;> linarith [hl, hh]
  · rw [if_neg h1, if_neg h2, if_pos h3]
    simp only [Option.some.injEq, Prod.mk.injEq] at h
    obtain ⟨hl, hh⟩ := h
    rw [← hl, ← hh]
    exact ⟨0, 10000, rfl, by norm_num, by norm_num, by norm_num⟩

/-- Closed form of `masters_max_ira_contribution` once both phase-out
ranges are known. -/
theorem masters_max_ira_eq (year age : ℤ) (fs : String) (magi : ℚ)
    (low high low_t high_t : ℚ)
    (hr : masters_roth_range year fs = some (low, high))
    (ht : masters_trad_range year fs = some (low_t, high_t)) :
    masters_max_ira_contribution year age fs magi true =
      Except.ok (max
        (phaseInterp low_t high_t
          (masters_projected_limit year + (if 50 ≤ age then CATCH_UP else 0)) magi)
        (phaseInterp low high
          (masters_projected_limit year + (if 50 ≤ age then CATCH_UP else 0)) magi))
    ∧ masters_max_ira_contribution year age fs magi false =
      Except.ok (max
        (masters_projected_limit year + (if 50 ≤ age then CATCH_UP else 0))
        (phaseInterp low high
          (masters_projected_limit year + (if 50 ≤ age then CATCH_UP else 0)) magi)) := by
  constructor <;> simp only [masters_max_ira_contribution, hr, ht] <;> rfl

/-- C2 (amended): for a recognized filing status with a non-negative base
limit, `max_ira_contribution` is non-increasing in MAGI; below the Roth
low bound it returns exactly `max_total`; with `plan_covered` it returns
exactly 0 once MAGI reaches the Roth high bound; but WITHOUT
`plan_covered` it returns `max_total` for every MAGI (the traditional
side is unlimited), so the original claim's "exactly 0 once magi >= high"
fails for `plan_covered = false` (see the counterexample). -/
theorem C2_phaseout_amended (year age : ℤ) (fs : String) (pc : Bool) (low high : ℚ)
    (hfs : masters_roth_range year fs = some (low, high))
    (hbase : 0 ≤ masters_projected_limit year) :
    (∀ m m' v v', m ≤ m' →
        masters_max_ira_contribution year age fs m pc = Except.ok v →
        masters_max_ira_contribution year age fs m' pc = Except.ok v' → v' ≤ v)
    ∧ (∀ m, m < low →
        masters_max_ira_contribution year age fs m pc
          = Except.ok (masters_projected_limit year + (if 50 ≤ age then CATCH_UP else 0)))
    ∧ (pc = true → ∀ m, high ≤ m →
        masters_max_ira_contribution year age fs m pc = Except.ok 0)
    ∧ (pc = false → ∀ m,
        masters_max_ira_contribution year age fs m pc
          = Except.ok (masters_projected_limit year + (if 50 ≤ age then CATCH_UP else 0))) := by
  obtain ⟨low_t, high_t, ht, hlh, hlht, hht⟩ := masters_range_facts year fs low high hfs
  have hmt : 0 ≤ masters_projected_limit year + (if 50 ≤ age then CATCH_UP else 0) := by
    refine add_nonneg hbase ?_
    split_ifs
    · norm_num [CATCH_UP]
    · exact le_refl 0
  have heqT := fun (m : ℚ) => (masters_max_ira_eq year age fs m low high low_t high_t hfs ht).1
  have heqF := fun (m : ℚ) => (masters_max_ira_eq year age fs m low high low_t high_t hfs ht).2
  refine ⟨?_, ?_, ?_, ?_⟩
  · intro m m' v v' hmm hv hv'
    cases pc with
    | false =>
      rw [heqF m] at hv
      rw [heqF m'] at hv'
      simp only [Except.ok.injEq] at hv hv'
      rw [← hv, ← hv']
      exact max_le_max (le_refl _) (phaseInterp_anti low high _ hlh hmt hmm)
    | true =>
      rw [heqT m] at hv
      rw [heqT m'] at hv'
      simp only [Except.ok.injEq] at hv hv'
      rw [← hv, ← hv']
      exact max_le_max (phaseInterp_anti low_t high_t _ hlht hmt hmm)
        (phaseInterp_anti low high _ hlh hmt hmm)
  · intro m hm
    cases pc with
    | false =>
      rw [heqF m, phaseInterp_of_lt_low low high _ m hm, max_self]
    | true =>
      rw [heqT m, phaseInterp_of_lt_low low high _ m hm,
        max_eq_right (phaseInterp_le low_t high_t _ m hlht hmt)]
  · intro hpc m hm
    subst hpc
    rw [heqT m, phaseInterp_of_ge_high low high _ m hlh hm,
      phaseInterp_of_ge_high low_t high_t _ m hlht (le_trans hht hm), max_self]
  · intro hpc m
    subst hpc
    rw [heqF m, max_eq_left (phaseInterp_le low high _ m hlh hmt)]

/-- C2 witness: single filer in 2025 below the phase-out receives the
full 7000 limit. -/
theorem C2_witness :
    masters_roth_range 2025 "single" = some (150000, 165000) ∧
      (0:ℚ) < 150000 ∧
      masters_max_ira_contribution 2025 30 "single" 0 false = Except.ok 7000 := by
  have hfs : masters_roth_range 2025 "single" = some (150000, 165000) := by
    simp [masters_roth_range, masters_get_phaseout, masters_phase_out_2025]
  refine ⟨hfs, by norm_num, ?_⟩
  have h := (C2_phaseout_amended 2025 30 "single" false 150000 165000 hfs
    (by norm_num [masters_projected_limit])).2.1 0 (by norm_num)
  simpa [masters_projected_limit, CATCH_UP] using h

/-- C2 counterexample: at MAGI 165000 (the Roth high bound) with
`plan_covered = false` the masters module returns 7000, not the 0 the
claim requires at or above the high bound. -/
theorem C2_counterexample :
    masters_roth_range 2025 "single" = some (150000, 165000) ∧
      masters_max_ira_contribution 2025 30 "single" 165000 false = Except.ok 7000 ∧
      (7000 : ℚ) ≠ 0 := by
  refine ⟨?_, ?_, by norm_num⟩
  · simp [masters_roth_range, masters_get_phaseout, masters_phase_out_2025]
  · simp [masters_max_ira_contribution, masters_roth_range, masters_trad_range,
      masters_get_phaseout, masters_phase_out_2025, masters_projected_limit,
      phaseInterp, CATCH_UP]
    norm_num

/-- C4 (amended): in the full-time/part-time module, `hoh` and
`separate_not_lived` select the same (roth_single) category as `single`,
`joint` and `separate_lived` succeed, and any string outside the
recognized set fails with UnsupportedFilingStatus; however
`separate_not_lived` with `plan_covered` fails in the traditional-IRA
branch, and the masters module's `max_ira_contribution` recognizes only
`single`/`joint`/`separate_lived`, failing with UnsupportedFilingStatus
for `hoh` and `separate_not_lived` — so the original claim's "does not
fail for any status in the recognized set" does not hold of either
implementation in full. -/
theorem C4_filing_status_amended (year age : ℤ) (magi : ℚ) :
    (ftpt_max_ira_contribution year age "hoh" magi false
        = ftpt_max_ira_contribution year age "single" magi false)
    ∧ (ftpt_max_ira_contribution year age "separate_not_lived" magi false
        = ftpt_max_ira_contribution year age "single" magi false)
    ∧ (∃ v, ftpt_max_ira_contribution year age "joint" magi false = Except.ok v)
    ∧ (∃ v, ftpt_max_ira_contribution year age "separate_lived" magi false = Except.ok v)
    ∧ (∃ v, ftpt_max_ira_contribution year age "hoh" magi true = Except.ok v)
    ∧ (ftpt_max_ira_contribution year age "separate_not_lived" magi true
        = Except.error "Unsupported filing status for traditional IRA")
    ∧ (∀ fs, fs ∉ (["single", "hoh", "separate_not_lived", "joint",
          "separate_lived"] : List String) →
        ∀ pc, ftpt_max_ira_contribution year age fs magi pc
          = Except.error "Unsupported filing status")
    ∧ (masters_max_ira_contribution year age "hoh" magi false
        = Except.error "Unsupported filing status")
    ∧ (masters_max_ira_contribution year age "separate_not_lived" magi false
        = Except.error "Unsupported filing status") := by
  refine ⟨?_, ?_, ⟨_, rfl⟩, ⟨_, rfl⟩, ⟨_, rfl⟩, rfl, ?_, ?_, ?_⟩
  · simp [ftpt_max_ira_contribution, ftpt_roth_range]
  · simp [ftpt_max_ira_contribution, ftpt_roth_range]
  · intro fs hfs pc
    simp only [List.mem_cons, List.not_mem_nil, or_false, not_or] at hfs
    obtain ⟨h1, h2, h3, h4, h5⟩ := hfs
    cases pc <;>
      simp [ftpt_max_ira_contribution, ftpt_roth_range, ftpt_trad_range,
        h1, h2, h3, h4, h5]
  · simp [masters_max_ira_contribution, masters_roth_range]
  · simp [masters_max_ira_contribution, masters_roth_range]

/-- C4 witness: an unrecognized filing status string fails with
UnsupportedFilingStatus. -/
theorem C4_witness :
    ftpt_max_ira_contribution 2025 30 "widowed" 0 false
      = Except.error "Unsupported filing status" :=
  (C4_filing_status_amended 2025 30 0).2.2.2.2.2.2.1 "widowed" (by decide) false

/-- C4 counterexample: the masters module fails on head-of-household
(which the claim says selects roth_single without failing), and the
full-time/part-time module fails on separate_not_lived when
plan_covered is set. -/
theorem C4_counterexample :
    masters_max_ira_contribution 2025 30 "hoh" 50000 false
        = Except.error "Unsupported filing status"
    ∧ ftpt_max_ira_contribution 2025 30 "separate_not_lived" 50000 true
        = Except.error "Unsupported filing status for traditional IRA" := by
  constructor
  · simp [masters_max_ira_contribution, masters_roth_range]
  · simp [ftpt_max_ira_contribution, ftpt_roth_range, ftpt_trad_range]
